import Mathlib

/-!
Shallow embedding of the GolfBuddy video-processing pipeline
(`src/app.py`, `src/golf_swing_video.py`).

Frames are modelled as rectangular pixel buffers: a height, a width, and a
pixel function.  Pixels are BGR channel triples, matching OpenCV's layout.
External capabilities (video source, video sink, pose detector, FFmpeg
transcoder, FFprobe metadata probe) are modelled as fields of an
environment record; the functions of `app.py` are translated over that
environment.
-/

namespace GolfBuddy

/-- Pixel channel triple, in OpenCV's BGR order: (blue, green, red). -/
abbrev Pixel := Nat × Nat × Nat

/-- Rectangular pixel buffer: `px i j` is the pixel at row `i`, column `j`
(values at out-of-range indices are irrelevant; see `FrameEq`). -/
structure Frame where
  h : Nat
  w : Nat
  px : Nat → Nat → Pixel

/-- Pose landmark set: an ordered list of (x, y, z) coordinate triples, as
returned by the external detector (`results.pose_landmarks`). -/
abbrev Landmarks := List (Int × Int × Int)

/-- Colorspace conversion `cv2.cvtColor(frame, cv2.COLOR_BGR2RGB)`
(`app.py` line 168): a new buffer whose pixel channels are reversed. -/
def bgr2rgb (f : Frame) : Frame :=
  ⟨f.h, f.w, fun i j => ((f.px i j).2.2, (f.px i j).2.1, (f.px i j).1)⟩

/-- Pixel-buffer semantics of `cv2.rotate(frame, cv2.ROTATE_90_CLOCKWISE)`:
row `i` of the output is column `i` of the input read bottom-to-top;
output dimensions are the input's swapped. -/
def rot90cw (f : Frame) : Frame :=
  ⟨f.w, f.h, fun i j => f.px (f.h - 1 - j) i⟩

/-- Pixel-buffer semantics of `cv2.rotate(frame, cv2.ROTATE_180)`:
point reflection; dimensions unchanged. -/
def rot180 (f : Frame) : Frame :=
  ⟨f.h, f.w, fun i j => f.px (f.h - 1 - i) (f.w - 1 - j)⟩

/-- Pixel-buffer semantics of
`cv2.rotate(frame, cv2.ROTATE_90_COUNTERCLOCKWISE)`: row `i` of the output
is column `w - 1 - i` of the input read top-to-bottom; dimensions swapped. -/
def rot90ccw (f : Frame) : Frame :=
  ⟨f.w, f.h, fun i j => f.px j (f.w - 1 - i)⟩

/-- Translation of `rotate_frame(frame, rotation)` (`app.py` lines 97-105):
dispatches on the rotation angle; any angle other than 90, 180, 270 falls
through to `return frame`. -/
def rotate_frame (f : Frame) (rotation : Int) : Frame :=
  if rotation = 90 then rot90cw f
  else if rotation = 180 then rot180 f
  else if rotation = 270 then rot90ccw f
  else f

/-- Observational equality of frames: same dimensions and same pixels at
every in-range index. -/
def FrameEq (f g : Frame) : Prop :=
  f.h = g.h ∧ f.w = g.w ∧ ∀ i < f.h, ∀ j < f.w, f.px i j = g.px i j

instance (f g : Frame) : Decidable (FrameEq f g) := by
  unfold FrameEq; infer_instance

/-- Semantic inverse of a rotation angle: 90 and 270 are mutually inverse,
0 and 180 are self-inverse. -/
def invRot (r : Int) : Int :=
  if r = 90 then 270 else if r = 270 then 90 else r

/-- Environment of external capabilities consumed by
`process_video_with_pose`: the FFprobe rotation metadata (`none` models a
probe failure or absent tag), whether `cv2.VideoCapture` opens, the
source geometry and frame rate it reports, the sequence of frames
`cap.read` yields, whether a `cv2.VideoWriter` opens with the avc1 and
mp4v codecs respectively, the pose detector (`pose.process`, which may
raise an exception, modelled as `Except.error`), the in-place landmark
drawing of `mp_drawing.draw_landmarks` (new pixel content for the drawn
buffer), and the FFmpeg transcoder (`none` models a non-zero exit or a
missing binary). -/
structure Env where
  metaRot : Option Int
  capOpens : Bool
  srcW : Nat
  srcH : Nat
  fps : Int
  frames : List Frame
  avc1Opens : Bool
  mp4vOpens : Bool
  detect : Nat → Frame → Except Unit (Option Landmarks)
  drawPx : Frame → Landmarks → Nat → Nat → Pixel
  transcode : List Frame → Option (List Frame)

/-- Exceptions `process_video_with_pose` can raise: the explicit
`raise Exception(...)` when the capture fails to open (`app.py` line 127),
or an exception propagating out of an external call inside the frame loop
(the detector). -/
inductive DriverError where
  | sourceOpen : DriverError
  | detectorRaise : DriverError
deriving DecidableEq

/-- Outcome of the frame loop: clean end of stream, or an exception
propagated out of the loop body. -/
inductive LoopOutcome where
  | finished : LoopOutcome
  | raised : LoopOutcome
deriving DecidableEq

/-- Observable state of one pipeline run: the frames handed to
`out.write`, the `frame_count` counter, whether `cap.release()`,
`out.release()` and `pose.close()` were executed, whether the sink writer
ended up opened, how many `cv2.VideoWriter` open attempts were made, and
the width/height the writer was created with. -/
structure RunState where
  written : List Frame
  frameCount : Nat
  capReleased : Bool
  outReleased : Bool
  poseClosed : Bool
  sinkOpened : Bool
  openAttempts : Nat
  outW : Nat
  outH : Nat

/-- Translation of `get_video_rotation` (`app.py` lines 80-95): the
FFprobe rotation tag, with failure or absence mapped to 0. -/
def get_video_rotation (env : Env) : Int :=
  match env.metaRot with
  | some r => r
  | none => 0

/-- Rotation resolution of `process_video_with_pose` (`app.py`
lines 116-122): the manual rotation when provided, otherwise the probed
metadata rotation. -/
def resolveRot (env : Env) (manual_rotation : Option Int) : Int :=
  match manual_rotation with
  | some r => r
  | none => get_video_rotation env

/-- Conditional rotation applied to each frame (`app.py` lines 163-165):
`if rotation != 0: frame = rotate_frame(frame, rotation)`. -/
def rotApply (rotation : Int) (f : Frame) : Frame :=
  if rotation ≠ 0 then rotate_frame f rotation else f

/-- One iteration's frame value as handed to `out.write` (`app.py`
lines 163-182): rotate when the resolved rotation is non-zero, convert to
RGB for the detector, and draw landmarks in place when the detector
returns some (an in-place draw keeps the buffer's dimensions). -/
def renderFrame (env : Env) (rotation : Int) (k : Nat) (f : Frame) : Frame :=
  let f1 := rotApply rotation f
  match env.detect k (bgr2rgb f1) with
  | Except.ok (some lm) => ⟨f1.h, f1.w, env.drawPx f1 lm⟩
  | _ => f1

/-- Translation of the `while cap.isOpened()` loop of
`process_video_with_pose` (`app.py` lines 158-186): per frame, rotate,
convert colorspace, call the detector (an exception aborts the loop with
the state reached so far), draw when landmarks are present, write through
the sink (a write on an unopened `cv2.VideoWriter` is a silent no-op),
and advance `frame_count`.  Returns the written frames, the final
counter, and whether the loop finished or an exception escaped. -/
def processFrames (env : Env) (rotation : Int) (sinkOpen : Bool) :
    List Frame → Nat → List Frame → List Frame × Nat × LoopOutcome
  | [], count, written => (written, count, LoopOutcome.finished)
  | f :: rest, count, written =>
    let f1 := rotApply rotation f
    match env.detect count (bgr2rgb f1) with
    | Except.error _ => (written, count, LoopOutcome.raised)
    | Except.ok res =>
      let f2 := match res with
        | some lm => ⟨f1.h, f1.w, env.drawPx f1 lm⟩
        | none => f1
      processFrames env rotation sinkOpen rest (count + 1)
        (if sinkOpen then written ++ [f2] else written)

/-- Translation of `process_video_with_pose(input_path, output_path,
manual_rotation)` (`app.py` lines 107-192).  The pose object is created
first; the rotation is the manual one when provided, else the probed one;
a capture that fails to open raises; width/height are swapped for
rotations 90 and 270; the writer is opened with avc1 and, only if that
fails, once more with mp4v — with no check after the fallback; the frame
loop runs; the three releases execute only when the loop returns
normally. -/
def process_video_with_pose (env : Env) (manual_rotation : Option Int) :
    RunState × Except DriverError Unit :=
  let rotation := resolveRot env manual_rotation
  if env.capOpens = false then
    (⟨[], 0, false, false, false, false, 0, 0, 0⟩,
      Except.error DriverError.sourceOpen)
  else
    let width := if rotation = 90 ∨ rotation = 270
      then env.srcH else env.srcW
    let height := if rotation = 90 ∨ rotation = 270
      then env.srcW else env.srcH
    let sinkOpen := env.avc1Opens || env.mp4vOpens
    let attempts := if env.avc1Opens then 1 else 2
    match processFrames env rotation sinkOpen env.frames 0 [] with
    | (written, count, LoopOutcome.raised) =>
      (⟨written, count, false, false, false, sinkOpen, attempts,
        width, height⟩, Except.error DriverError.detectorRaise)
    | (written, count, LoopOutcome.finished) =>
      (⟨written, count, true, true, true, sinkOpen, attempts,
        width, height⟩, Except.ok ())

/-- Translation of `numpy.ndarray.copy` as used in `frame.copy()`
(`golf_swing_video.py` line 66): a fresh buffer with identical
dimensions and pixel content. -/
def copyFrame (f : Frame) : Frame :=
  ⟨f.h, f.w, fun i j => f.px i j⟩

/-- Translation of `GolfSwingProcessor.visualize_frame`
(`golf_swing_video.py` lines 59-73): when no landmark set is present the
input frame itself is returned; otherwise landmarks are drawn onto a copy
(`drawPx` is the external in-place drawing capability). -/
def visualize_frame (drawPx : Frame → Landmarks → Nat → Nat → Pixel)
    (frame : Frame) (pose_landmarks : Option Landmarks) : Frame :=
  match pose_landmarks with
  | none => frame
  | some lm =>
    let image := copyFrame frame
    ⟨image.h, image.w, drawPx image lm⟩

/-- State of the two artifact paths of one upload request: the content at
the raw intermediate path (`{id}_temp.mp4`) and at the final output path
(`{id}_output.mp4`); `none` means no file exists there.  File content is
modelled as the frame sequence the file encodes. -/
structure ArtifactFS where
  temp : Option (List Frame)
  out : Option (List Frame)

/-- Translation of `convert_to_browser_compatible(input_path,
output_path)` (`app.py` lines 48-78): invokes the external FFmpeg
capability on the raw intermediate; on success the transcoded content is
written at the output path and `True` is returned; a non-zero exit, a
missing binary, or a missing input file yields `False` with no output
written. -/
def convert_to_browser_compatible (env : Env) (fs : ArtifactFS) :
    ArtifactFS × Bool :=
  match fs.temp with
  | none => (fs, false)
  | some raw =>
    match env.transcode raw with
    | some b => (⟨fs.temp, some b⟩, true)
    | none => (fs, false)

/-- Translation of the finalize step of `upload_video` (`app.py`
lines 237-247): run the FFmpeg conversion; on success remove the raw
intermediate if it exists; on failure rename the raw intermediate to the
final path if it exists. -/
def finalizeOutput (env : Env) (fs : ArtifactFS) : ArtifactFS × Bool :=
  let r := convert_to_browser_compatible env fs
  if r.2 then
    (if r.1.temp.isSome then ⟨none, r.1.out⟩ else r.1, true)
  else
    (if r.1.temp.isSome then ⟨none, r.1.temp⟩ else r.1, false)

/-- HTTP-level outcome of `upload_video`: the success JSON or the
structured error JSON with status 500. -/
inductive UploadResponse where
  | ok : UploadResponse
  | err : UploadResponse
deriving DecidableEq

/-- Translation of the try/except body of `upload_video` (`app.py`
lines 230-259), from the call to `process_video_with_pose` on: a raised
exception is caught, the raw intermediate is removed when it exists, and
the structured error response is returned; on normal return the finalize
step runs and the success response is returned.  The raw intermediate
path holds the frames the driver wrote when its sink writer opened (an
unopened `cv2.VideoWriter` creates no file). -/
def upload_video_tail (env : Env) (manual_rotation : Option Int) :
    ArtifactFS × UploadResponse :=
  let r := process_video_with_pose env manual_rotation
  let fsMid : ArtifactFS :=
    ⟨if r.1.sinkOpened then some r.1.written else none, none⟩
  match r.2 with
  | Except.error _ =>
    (if fsMid.temp.isSome then ⟨none, fsMid.out⟩ else fsMid,
      UploadResponse.err)
  | Except.ok _ =>
    ((finalizeOutput env fsMid).1, UploadResponse.ok)

/-- Heap of image buffers, for the aliasing behavior of the per-frame
colorspace conversion: cell `i` is the buffer with identity `i`. -/
structure BufHeap where
  cells : List Frame

/-- Content of buffer `i`, when allocated. -/
def BufHeap.read (s : BufHeap) (i : Nat) : Option Frame :=
  s.cells.get? i

/-- Allocation of a fresh buffer holding `f`: returns the new heap and
the fresh buffer's identity. -/
def BufHeap.alloc (s : BufHeap) (f : Frame) : BufHeap × Nat :=
  (⟨s.cells ++ [f]⟩, s.cells.length)

/-- Heap-level semantics of `frame_rgb = cv2.cvtColor(frame,
cv2.COLOR_BGR2RGB)` (`app.py` line 168, `golf_swing_video.py` line 47):
`cv2.cvtColor` allocates a fresh output buffer holding the converted
pixels and leaves its source buffer untouched; returns the heap and the
identity bound to `frame_rgb`. -/
def cvtColorStep (s : BufHeap) (src : Nat) : BufHeap × Nat :=
  match s.read src with
  | some f => s.alloc (bgr2rgb f)
  | none => (s, src)

/-- Specification view of the frame loop in the exception-free case: the
sequence of frames handed to the sink, frame `k` of the input stream
becoming `renderFrame` at counter value `k`. -/
def renderAll (env : Env) (rotation : Int) : Nat → List Frame → List Frame
  | _, [] => []
  | k, f :: rest =>
    renderFrame env rotation k f :: renderAll env rotation (k + 1) rest

/-- Small concrete frame used to evaluate the model. -/
def tFrameA : Frame := ⟨2, 3, fun i j => (i, j, i + j)⟩

/-- Concrete 1080-row by 1920-column frame, the post-rotation shape of a
portrait capture of a 1920x1080 source. -/
def tFrame1080 : Frame := ⟨1080, 1920, fun i j => (i, j, 0)⟩

/-- Concrete environment: capture opens, one frame, both codecs fail to
open, detector always succeeds with no landmarks, transcoder succeeds by
duplicating the stream. -/
def envNoCodec : Env :=
  ⟨none, true, 3, 2, 30, [tFrameA], false, false,
    fun _ _ => Except.ok none, fun f _ _ _ => f.px 0 0,
    fun l => some (l ++ l)⟩

/-- Concrete environment: capture opens, one frame, primary codec fails
but the fallback opens, detector always succeeds with no landmarks. -/
def envFallback : Env :=
  ⟨none, true, 3, 2, 30, [tFrameA], false, true,
    fun _ _ => Except.ok none, fun f _ _ _ => f.px 0 0,
    fun l => some (l ++ l)⟩

/-- Concrete environment: capture opens, one frame, both codecs open fine,
detector always succeeds with no landmarks. -/
def envNormal : Env :=
  ⟨none, true, 3, 2, 30, [tFrameA], true, true,
    fun _ _ => Except.ok none, fun f _ _ _ => f.px 0 0,
    fun l => some (l ++ l)⟩

/-- Concrete environment: capture opens but the detector raises on every
frame, so the frame loop aborts exceptionally. -/
def envRaise : Env :=
  ⟨none, true, 3, 2, 30, [tFrameA], true, true,
    fun _ _ => Except.error (), fun f _ _ _ => f.px 0 0,
    fun l => some (l ++ l)⟩

/-- Concrete environment: capture fails to open, so the driver raises its
source-open exception. -/
def envNoCap : Env :=
  ⟨none, false, 3, 2, 30, [tFrameA], true, true,
    fun _ _ => Except.ok none, fun f _ _ _ => f.px 0 0,
    fun l => some (l ++ l)⟩

/-- Concrete environment: empty input stream (zero frames), everything
else healthy. -/
def envEmpty : Env :=
  ⟨none, true, 3, 2, 30, [], true, true,
    fun _ _ => Except.ok none, fun f _ _ _ => f.px 0 0,
    fun l => some (l ++ l)⟩

/-- Concrete environment: a single 1920x1080-geometry source frame,
everything healthy, for the orientation-hint-90 scenario. -/
def env1080 : Env :=
  ⟨none, true, 1920, 1080, 30, [⟨1080, 1920, fun i j => (i, j, 0)⟩],
    true, true,
    fun _ _ => Except.ok none, fun f _ _ _ => f.px 0 0,
    fun l => some (l ++ l)⟩

/-- Concrete environment: healthy run whose transcoder always fails,
exercising the raw-output fallback of the finalize step. -/
def envNoFFmpeg : Env :=
  ⟨none, true, 3, 2, 30, [tFrameA], true, true,
    fun _ _ => Except.ok none, fun f _ _ _ => f.px 0 0,
    fun _ => none⟩

/-- Height of a rotated frame: swapped for 90 and 270, unchanged
otherwise. -/
theorem rotate_frame_h (f : Frame) (r : Int) :
    (rotate_frame f r).h = if r = 90 ∨ r = 270 then f.w else f.h := by
  by_cases h90 : r = 90 <;> by_cases h180 : r = 180 <;>
    by_cases h270 : r = 270 <;>
    simp [rotate_frame, rot90cw, rot180, rot90ccw, h90, h180, h270]

/-- Width of a rotated frame: swapped for 90 and 270, unchanged
otherwise. -/
theorem rotate_frame_w (f : Frame) (r : Int) :
    (rotate_frame f r).w = if r = 90 ∨ r = 270 then f.h else f.w := by
  by_cases h90 : r = 90 <;> by_cases h180 : r = 180 <;>
    by_cases h270 : r = 270 <;>
    simp [rotate_frame, rot90cw, rot180, rot90ccw, h90, h180, h270]

/-- Height after the loop's conditional rotation. -/
theorem rotApply_h (r : Int) (f : Frame) :
    (rotApply r f).h = if r = 90 ∨ r = 270 then f.w else f.h := by
  by_cases h0 : r = 0
  · subst h0; simp [rotApply]
  · simp [rotApply, h0, rotate_frame_h]

/-- Width after the loop's conditional rotation. -/
theorem rotApply_w (r : Int) (f : Frame) :
    (rotApply r f).w = if r = 90 ∨ r = 270 then f.h else f.w := by
  by_cases h0 : r = 0
  · subst h0; simp [rotApply]
  · simp [rotApply, h0, rotate_frame_w]

/-- Rendering preserves the post-rotation height: landmark drawing is in
place. -/
theorem renderFrame_h (env : Env) (r : Int) (k : Nat) (f : Frame) :
    (renderFrame env r k f).h = (rotApply r f).h := by
  unfold renderFrame
  rcases hd : env.detect k (bgr2rgb (rotApply r f)) with e | res
  · simp [hd]
  · rcases res with _ | lm <;> simp [hd]

/-- Rendering preserves the post-rotation width: landmark drawing is in
place. -/
theorem renderFrame_w (env : Env) (r : Int) (k : Nat) (f : Frame) :
    (renderFrame env r k f).w = (rotApply r f).w := by
  unfold renderFrame
  rcases hd : env.detect k (bgr2rgb (rotApply r f)) with e | res
  · simp [hd]
  · rcases res with _ | lm <;> simp [hd]

/-- Characterization of the frame loop when the detector never raises:
it finishes, the counter advances by exactly the number of input frames,
and the frames handed to the sink are the rendered stream (or nothing at
all when the sink writer is not open). -/
theorem processFrames_eq (env : Env) (rotation : Int) (so : Bool)
    (hdet : ∀ k f, ∃ v, env.detect k f = Except.ok v)
    (fs : List Frame) :
    ∀ (c : Nat) (w : List Frame),
      processFrames env rotation so fs c w =
        (w ++ (if so then renderAll env rotation c fs else []),
          c + fs.length, LoopOutcome.finished) := by
  induction fs with
  | nil => intro c w; simp [processFrames, renderAll]
  | cons f rest ih =>
    intro c w
    obtain ⟨v, hv⟩ := hdet c (bgr2rgb (rotApply rotation f))
    rcases v with _ | lm <;>
      cases so <;>
      simp [processFrames, renderAll, renderFrame, hv, ih,
        List.append_assoc] <;>
      omega

/-- Length of the rendered stream equals the input length. -/
theorem renderAll_length (env : Env) (rotation : Int) (fs : List Frame) :
    ∀ k : Nat, (renderAll env rotation k fs).length = fs.length := by
  induction fs with
  | nil => intro k; simp [renderAll]
  | cons f rest ih => intro k; simp [renderAll, ih]

/-- Dimensions of every rendered frame, given uniform source
dimensions: swapped when the rotation is 90 or 270. -/
theorem renderAll_dims (env : Env) (rotation : Int) (H W : Nat)
    (fs : List Frame) (hdims : ∀ f ∈ fs, f.h = H ∧ f.w = W) :
    ∀ k : Nat, ∀ g ∈ renderAll env rotation k fs,
      g.h = (if rotation = 90 ∨ rotation = 270 then W else H) ∧
      g.w = (if rotation = 90 ∨ rotation = 270 then H else W) := by
  induction fs with
  | nil => intro k g hg; simp [renderAll] at hg
  | cons f rest ih =>
    intro k g hg
    rcases hdims f (by simp) with ⟨hH, hW⟩
    simp only [renderAll, List.mem_cons] at hg
    rcases hg with hg | hg
    · subst hg
      constructor
      · rw [renderFrame_h, rotApply_h, hH, hW]
      · rw [renderFrame_w, rotApply_w, hH, hW]
    · exact ih (fun x hx => hdims x (by simp [hx])) (k + 1) g hg

/-- Rendered frame when the detector reports no landmarks: the
post-rotation frame itself, untouched by compositing. -/
theorem renderFrame_none (env : Env) (r : Int) (k : Nat) (f : Frame)
    (h : env.detect k (bgr2rgb (rotApply r f)) = Except.ok none) :
    renderFrame env r k f = rotApply r f := by
  simp [renderFrame, h]

/-- Rendered stream of a detector that never finds landmarks: the
conditionally rotated input frames, unchanged by compositing. -/
theorem renderAll_none (env : Env) (rotation : Int) (fs : List Frame)
    (hnone : ∀ k f, env.detect k f = Except.ok none) :
    ∀ k : Nat, renderAll env rotation k fs = fs.map (rotApply rotation) := by
  induction fs with
  | nil => intro k; simp [renderAll]
  | cons f rest ih =>
    intro k
    simp [renderAll, renderFrame_none env rotation k f (hnone k _), ih]

/-- Reflexivity of observational frame equality. -/
theorem frameEq_refl (f : Frame) : FrameEq f f :=
  ⟨rfl, rfl, fun _ _ _ _ => rfl⟩

/-- Clockwise then counter-clockwise quarter rotation is the identity on
every in-range pixel. -/
theorem rot_cw_ccw (f : Frame) : FrameEq (rot90ccw (rot90cw f)) f := by
  refine ⟨rfl, rfl, fun i hi j hj => ?_⟩
  simp only [rot90cw, rot90ccw] at hi hj ⊢
  have e : f.h - 1 - (f.h - 1 - i) = i := by omega
  rw [e]

/-- Counter-clockwise then clockwise quarter rotation is the identity on
every in-range pixel. -/
theorem rot_ccw_cw (f : Frame) : FrameEq (rot90cw (rot90ccw f)) f := by
  refine ⟨rfl, rfl, fun i hi j hj => ?_⟩
  simp only [rot90cw, rot90ccw] at hi hj ⊢
  have e : f.w - 1 - (f.w - 1 - j) = j := by omega
  rw [e]

/-- Half rotation is an involution on every in-range pixel. -/
theorem rot180_invol (f : Frame) : FrameEq (rot180 (rot180 f)) f := by
  refine ⟨rfl, rfl, fun i hi j hj => ?_⟩
  simp only [rot180] at hi hj ⊢
  have e1 : f.h - 1 - (f.h - 1 - i) = i := by omega
  have e2 : f.w - 1 - (f.w - 1 - j) = j := by omega
  rw [e1, e2]

/-- Claim C8: for every orientation in {0, 90, 180, 270} and every
frame, applying the Frame Transformer's rotation and then its semantic
inverse yields a frame identical to the original; 0 is the identity, 90
is clockwise with width/height swap, 180 keeps dimensions, 270 is
counter-clockwise with width/height swap. -/
theorem claim_C8 (f : Frame) (r : Int)
    (hr : r = 0 ∨ r = 90 ∨ r = 180 ∨ r = 270) :
    FrameEq (rotate_frame (rotate_frame f r) (invRot r)) f ∧
    rotate_frame f 0 = f ∧
    rotate_frame f 90 = rot90cw f ∧
    (rotate_frame f 90).h = f.w ∧ (rotate_frame f 90).w = f.h ∧
    rotate_frame f 180 = rot180 f ∧
    (rotate_frame f 180).h = f.h ∧ (rotate_frame f 180).w = f.w ∧
    rotate_frame f 270 = rot90ccw f ∧
    (rotate_frame f 270).h = f.w ∧ (rotate_frame f 270).w = f.h := by
  refine ⟨?_, by norm_num [rotate_frame], by norm_num [rotate_frame],
    by norm_num [rotate_frame, rot90cw], by norm_num [rotate_frame, rot90cw],
    by norm_num [rotate_frame], by norm_num [rotate_frame, rot180],
    by norm_num [rotate_frame, rot180], by norm_num [rotate_frame],
    by norm_num [rotate_frame, rot90ccw], by norm_num [rotate_frame, rot90ccw]⟩
  rcases hr with h | h | h | h <;> subst h
  · have e0 : rotate_frame f 0 = f := by norm_num [rotate_frame]
    have ei : invRot 0 = 0 := by norm_num [invRot]
    rw [e0, ei, e0]
    exact frameEq_refl f
  · have e1 : rotate_frame f 90 = rot90cw f := by norm_num [rotate_frame]
    have ei : invRot 90 = 270 := by norm_num [invRot]
    have e2 : rotate_frame (rot90cw f) 270 = rot90ccw (rot90cw f) := by
      norm_num [rotate_frame]
    rw [e1, ei, e2]
    exact rot_cw_ccw f
  · have e1 : rotate_frame f 180 = rot180 f := by norm_num [rotate_frame]
    have ei : invRot 180 = 180 := by norm_num [invRot]
    have e2 : rotate_frame (rot180 f) 180 = rot180 (rot180 f) := by
      norm_num [rotate_frame]
    rw [e1, ei, e2]
    exact rot180_invol f
  · have e1 : rotate_frame f 270 = rot90ccw f := by norm_num [rotate_frame]
    have ei : invRot 270 = 90 := by norm_num [invRot]
    have e2 : rotate_frame (rot90ccw f) 90 = rot90cw (rot90ccw f) := by
      norm_num [rotate_frame]
    rw [e1, ei, e2]
    exact rot_ccw_cw f

/-- Witness for C8 at the concrete frame `tFrameA` and orientation 90. -/
theorem claim_C8_witness :
    FrameEq (rotate_frame (rotate_frame tFrameA 90) (invRot 90)) tFrameA ∧
    rotate_frame tFrameA 0 = tFrameA ∧
    rotate_frame tFrameA 90 = rot90cw tFrameA ∧
    (rotate_frame tFrameA 90).h = tFrameA.w ∧
    (rotate_frame tFrameA 90).w = tFrameA.h ∧
    rotate_frame tFrameA 180 = rot180 tFrameA ∧
    (rotate_frame tFrameA 180).h = tFrameA.h ∧
    (rotate_frame tFrameA 180).w = tFrameA.w ∧
    rotate_frame tFrameA 270 = rot90ccw tFrameA ∧
    (rotate_frame tFrameA 270).h = tFrameA.w ∧
    (rotate_frame tFrameA 270).w = tFrameA.h :=
  claim_C8 tFrameA 90 (Or.inr (Or.inl rfl))

/-- Claim C7: when the detector returns no landmark set for a frame, the
Overlay Compositor returns the frame pixel-identical to its input — both
in `visualize_frame` and in the driver loop, where a run whose detector
never finds landmarks hands the sink exactly the conditionally rotated
input frames, untouched by compositing. -/
theorem claim_C7 (dpx : Frame → Landmarks → Nat → Nat → Pixel)
    (g : Frame) (env : Env) (r : Int)
    (hcap : env.capOpens = true) (havc : env.avc1Opens = true)
    (hnone : ∀ k f, env.detect k f = Except.ok none) :
    visualize_frame dpx g none = g ∧
    (process_video_with_pose env (some r)).1.written =
      env.frames.map (rotApply r) := by
  have hdet : ∀ k f, ∃ v, env.detect k f = Except.ok v :=
    fun k f => ⟨none, hnone k f⟩
  refine ⟨rfl, ?_⟩
  simp [process_video_with_pose, hcap, havc, resolveRot,
    processFrames_eq env r true hdet, renderAll_none env r env.frames hnone]

/-- Witness for C7 at a concrete frame and the concrete all-healthy
environment with a landmark-free detector. -/
theorem claim_C7_witness :
    visualize_frame (fun f _ _ _ => f.px 0 0) tFrameA none = tFrameA ∧
    (process_video_with_pose envNormal (some 0)).1.written =
      envNormal.frames.map (rotApply 0) :=
  claim_C7 (fun f _ _ _ => f.px 0 0) tFrameA envNormal 0 rfl rfl
    (fun _ _ => rfl)

/-- Claim C2: on an existing raw intermediate, the finalize step always
ends with nothing at the intermediate path and exactly one file at the
final path: the transcoded content when the external transcoder
succeeds, the raw intermediate's own content byte-identically when it
fails. -/
theorem claim_C2 (env : Env) (fs : ArtifactFS) (raw : List Frame)
    (htemp : fs.temp = some raw) :
    (finalizeOutput env fs).1.temp = none ∧
    (finalizeOutput env fs).1.out.isSome = true ∧
    (∀ b, env.transcode raw = some b →
      (finalizeOutput env fs).1.out = some b ∧
      (finalizeOutput env fs).2 = true) ∧
    (env.transcode raw = none →
      (finalizeOutput env fs).1.out = some raw ∧
      (finalizeOutput env fs).2 = false) := by
  rcases ht : env.transcode raw with _ | b <;>
    simp [finalizeOutput, convert_to_browser_compatible, htemp, ht]

/-- Witness for C2 at a concrete filesystem state and environments with a
succeeding and a failing transcoder. -/
theorem claim_C2_witness :
    ((finalizeOutput envNormal ⟨some [tFrameA], none⟩).1.temp = none ∧
      (finalizeOutput envNormal ⟨some [tFrameA], none⟩).1.out.isSome = true ∧
      (∀ b, envNormal.transcode [tFrameA] = some b →
        (finalizeOutput envNormal ⟨some [tFrameA], none⟩).1.out = some b ∧
        (finalizeOutput envNormal ⟨some [tFrameA], none⟩).2 = true) ∧
      (envNormal.transcode [tFrameA] = none →
        (finalizeOutput envNormal ⟨some [tFrameA], none⟩).1.out
          = some [tFrameA] ∧
        (finalizeOutput envNormal ⟨some [tFrameA], none⟩).2 = false)) ∧
    ((finalizeOutput envNoFFmpeg ⟨some [tFrameA], none⟩).1.temp = none ∧
      (finalizeOutput envNoFFmpeg ⟨some [tFrameA], none⟩).1.out.isSome
        = true ∧
      (∀ b, envNoFFmpeg.transcode [tFrameA] = some b →
        (finalizeOutput envNoFFmpeg ⟨some [tFrameA], none⟩).1.out = some b ∧
        (finalizeOutput envNoFFmpeg ⟨some [tFrameA], none⟩).2 = true) ∧
      (envNoFFmpeg.transcode [tFrameA] = none →
        (finalizeOutput envNoFFmpeg ⟨some [tFrameA], none⟩).1.out
          = some [tFrameA] ∧
        (finalizeOutput envNoFFmpeg ⟨some [tFrameA], none⟩).2 = false)) :=
  ⟨claim_C2 envNormal ⟨some [tFrameA], none⟩ [tFrameA] rfl,
    claim_C2 envNoFFmpeg ⟨some [tFrameA], none⟩ [tFrameA] rfl⟩

/-- Claim C9: producing the detector's RGB input view from a frame
allocates a fresh buffer and mutates no existing buffer: the frame used
for final compositing reads back unchanged, the view is a distinct
buffer holding the converted pixels, and every previously allocated
buffer is untouched. -/
theorem claim_C9 (s : BufHeap) (src : Nat) (f : Frame)
    (hsrc : s.read src = some f) :
    (cvtColorStep s src).1.read src = some f ∧
    (cvtColorStep s src).2 ≠ src ∧
    (cvtColorStep s src).1.read (cvtColorStep s src).2
      = some (bgr2rgb f) ∧
    ∀ j < s.cells.length, (cvtColorStep s src).1.read j = s.read j := by
  have hlt : src < s.cells.length := by
    by_contra hge
    have : s.cells.get? src = none := List.get?_eq_none.mpr (by omega)
    rw [BufHeap.read, this] at hsrc
    exact Option.noConfusion hsrc
  have hstep : cvtColorStep s src =
      (⟨s.cells ++ [bgr2rgb f]⟩, s.cells.length) := by
    simp [cvtColorStep, hsrc, BufHeap.alloc]
  refine ⟨?_, ?_, ?_, ?_⟩
  · rw [hstep]
    show (s.cells ++ [bgr2rgb f]).get? src = some f
    rw [List.get?_append hlt]
    exact hsrc
  · rw [hstep]
    omega
  · rw [hstep]
    show (s.cells ++ [bgr2rgb f]).get? s.cells.length = some (bgr2rgb f)
    exact List.get?_concat_length s.cells (bgr2rgb f)
  · intro j hj
    rw [hstep]
    show (s.cells ++ [bgr2rgb f]).get? j = s.read j
    rw [List.get?_append hj]
    rfl

/-- Witness for C9 at a one-buffer heap holding the concrete frame. -/
theorem claim_C9_witness :
    (cvtColorStep ⟨[tFrameA]⟩ 0).1.read 0 = some tFrameA ∧
    (cvtColorStep ⟨[tFrameA]⟩ 0).2 ≠ 0 ∧
    (cvtColorStep ⟨[tFrameA]⟩ 0).1.read (cvtColorStep ⟨[tFrameA]⟩ 0).2
      = some (bgr2rgb tFrameA) ∧
    ∀ j < (BufHeap.mk [tFrameA]).cells.length,
      (cvtColorStep ⟨[tFrameA]⟩ 0).1.read j
        = (BufHeap.mk [tFrameA]).read j :=
  claim_C9 ⟨[tFrameA]⟩ 0 tFrameA rfl

/-- Claim C10: whenever the processing stage of an upload request raises,
the handler's except branch removes the raw intermediate when it exists
and returns the structured error response, so no failed request leaves
the raw intermediate on disk. -/
theorem claim_C10 (env : Env) (mr : Option Int)
    (herr : ∃ e, (process_video_with_pose env mr).2 = Except.error e) :
    (upload_video_tail env mr).1.temp = none ∧
    (upload_video_tail env mr).2 = UploadResponse.err := by
  obtain ⟨e, he⟩ := herr
  simp only [upload_video_tail, he]
  cases hs : (process_video_with_pose env mr).1.sinkOpened <;> simp [hs]

/-- Witness for C10 at the concrete environment whose capture fails to
open, so the processing stage raises. -/
theorem claim_C10_witness :
    (upload_video_tail envNoCap none).1.temp = none ∧
    (upload_video_tail envNoCap none).2 = UploadResponse.err :=
  claim_C10 envNoCap none ⟨DriverError.sourceOpen, rfl⟩

/-- Characterization of a whole driver run when the capture opens and
the detector never raises: the run returns normally, all resources are
released, the counter ends at the stream length, the writer geometry is
the conditionally swapped source geometry, the avc1 open is attempted
once (twice counting the mp4v fallback when avc1 fails), and the written
frames are the rendered stream when a writer opened, nothing
otherwise. -/
theorem driver_ok (env : Env) (mr : Option Int)
    (hcap : env.capOpens = true)
    (hdet : ∀ k f, ∃ v, env.detect k f = Except.ok v) :
    process_video_with_pose env mr =
      (⟨if env.avc1Opens || env.mp4vOpens
          then renderAll env (resolveRot env mr) 0 env.frames else [],
        env.frames.length, true, true, true,
        env.avc1Opens || env.mp4vOpens,
        if env.avc1Opens then 1 else 2,
        if resolveRot env mr = 90 ∨ resolveRot env mr = 270
          then env.srcH else env.srcW,
        if resolveRot env mr = 90 ∨ resolveRot env mr = 270
          then env.srcW else env.srcH⟩,
        Except.ok ()) := by
  simp [process_video_with_pose, hcap,
    processFrames_eq env (resolveRot env mr)
      (env.avc1Opens || env.mp4vOpens) hdet env.frames]

/-- Claim C6: with a healthy source, an opened sink writer and a
never-raising detector, a run over an N-frame stream completes
successfully, processes exactly N frames (the counter ends at N) and
writes exactly N frames; N = 0 included. -/
theorem claim_C6 (env : Env) (mr : Option Int)
    (hcap : env.capOpens = true)
    (hsink : env.avc1Opens = true ∨ env.mp4vOpens = true)
    (hdet : ∀ k f, ∃ v, env.detect k f = Except.ok v) :
    (process_video_with_pose env mr).2 = Except.ok () ∧
    (process_video_with_pose env mr).1.frameCount = env.frames.length ∧
    (process_video_with_pose env mr).1.written.length
      = env.frames.length := by
  have hso : (env.avc1Opens || env.mp4vOpens) = true := by
    rcases hsink with h | h <;> simp [h]
  rw [driver_ok env mr hcap hdet]
  simp [hso, renderAll_length]

/-- Witness for C6 at the concrete empty-stream environment: the N = 0
run completes successfully with an empty output. -/
theorem claim_C6_witness :
    (process_video_with_pose envEmpty none).2 = Except.ok () ∧
    (process_video_with_pose envEmpty none).1.frameCount
      = envEmpty.frames.length ∧
    (process_video_with_pose envEmpty none).1.written.length
      = envEmpty.frames.length :=
  claim_C6 envEmpty none rfl (Or.inl rfl) (fun _ _ => ⟨none, rfl⟩)

/-- Claim C5: with a healthy source and a never-raising detector, when
every source frame has the source geometry, the writer geometry swaps
width and height exactly when the resolved orientation is 90 or 270, and
every frame handed to the sink has exactly the writer geometry. -/
theorem claim_C5 (env : Env) (r : Int)
    (hcap : env.capOpens = true)
    (hdet : ∀ k f, ∃ v, env.detect k f = Except.ok v)
    (hdims : ∀ f ∈ env.frames, f.h = env.srcH ∧ f.w = env.srcW) :
    (process_video_with_pose env (some r)).1.outW
      = (if r = 90 ∨ r = 270 then env.srcH else env.srcW) ∧
    (process_video_with_pose env (some r)).1.outH
      = (if r = 90 ∨ r = 270 then env.srcW else env.srcH) ∧
    ∀ g ∈ (process_video_with_pose env (some r)).1.written,
      g.w = (process_video_with_pose env (some r)).1.outW ∧
      g.h = (process_video_with_pose env (some r)).1.outH := by
  rw [driver_ok env (some r) hcap hdet]
  refine ⟨rfl, rfl, ?_⟩
  intro g hg
  cases hso : (env.avc1Opens || env.mp4vOpens) with
  | false => rw [hso] at hg; simp at hg
  | true =>
    rw [hso] at hg
    simp only [if_pos] at hg
    have hd := renderAll_dims env (resolveRot env (some r)) env.srcH
      env.srcW env.frames hdims 0 g hg
    have hrr : resolveRot env (some r) = r := rfl
    rw [hrr] at hd
    exact ⟨hd.2, hd.1⟩

/-- Witness for C5 at the concrete 1920x1080 source with orientation
hint 90: the writer geometry is 1080x1920 and the single written frame
has that exact resolution. -/
theorem claim_C5_witness :
    (process_video_with_pose env1080 (some 90)).1.outW = 1080 ∧
    (process_video_with_pose env1080 (some 90)).1.outH = 1920 ∧
    ∀ g ∈ (process_video_with_pose env1080 (some 90)).1.written,
      g.w = 1080 ∧ g.h = 1920 := by
  have h := claim_C5 env1080 90 rfl (fun _ _ => ⟨none, rfl⟩)
    (by intro f hf; simp [env1080] at hf; rw [hf]; exact ⟨rfl, rfl⟩)
  have hW : (process_video_with_pose env1080 (some 90)).1.outW = 1080 := by
    rw [h.1]; norm_num [env1080]
  have hH : (process_video_with_pose env1080 (some 90)).1.outH = 1920 := by
    rw [h.2.1]; norm_num [env1080]
  refine ⟨hW, hH, ?_⟩
  intro g hg
  have hgw := h.2.2 g hg
  rw [hW, hH] at hgw
  exact hgw

/-- Counterexample to C1 as stated: with the capture open and both the
primary (avc1) and the fallback (mp4v) codec failing to open, the run
does not fail with any sink-open error — it completes with `Except.ok`,
processes its frame, and silently writes nothing. -/
theorem claim_C1_cex :
    (process_video_with_pose envNoCodec none).2 = Except.ok () ∧
    (process_video_with_pose envNoCodec none).1.written = [] ∧
    (process_video_with_pose envNoCodec none).1.frameCount = 1 :=
  ⟨rfl, rfl, rfl⟩

/-- Claim C1 as amended: if opening the sink with the primary codec
fails, the driver falls back exactly once (at opening, before any frame
is written) to the secondary codec, and if the fallback succeeds the run
succeeds; but if the fallback also fails, the run does not fail with a
sink-open error — it also completes successfully, writing no frames. -/
theorem claim_C1_amended (env : Env) (mr : Option Int)
    (hcap : env.capOpens = true)
    (hdet : ∀ k f, ∃ v, env.detect k f = Except.ok v) :
    (process_video_with_pose env mr).1.openAttempts
      = (if env.avc1Opens then 1 else 2) ∧
    (process_video_with_pose env mr).2 = Except.ok () ∧
    (env.avc1Opens = false → env.mp4vOpens = false →
      (process_video_with_pose env mr).1.written = []) := by
  rw [driver_ok env mr hcap hdet]
  refine ⟨rfl, rfl, ?_⟩
  intro h1 h2
  simp [h1, h2]

/-- Witness for the amended C1 at the concrete environment whose primary
codec fails and whose fallback opens: one fallback attempt, successful
run. -/
theorem claim_C1_witness :
    (process_video_with_pose envFallback none).1.openAttempts
      = (if envFallback.avc1Opens then 1 else 2) ∧
    (process_video_with_pose envFallback none).2 = Except.ok () ∧
    (envFallback.avc1Opens = false → envFallback.mp4vOpens = false →
      (process_video_with_pose envFallback none).1.written = []) :=
  claim_C1_amended envFallback none rfl (fun _ _ => ⟨none, rfl⟩)

/-- Counterexample to C3 as stated: with the source opened and the
detector raising on the first frame, the run exits exceptionally and
none of the source, sink and pose resources are released — the release
calls sit after the loop, not in a protected block. -/
theorem claim_C3_cex :
    (process_video_with_pose envRaise none).2
      = Except.error DriverError.detectorRaise ∧
    (process_video_with_pose envRaise none).1.capReleased = false ∧
    (process_video_with_pose envRaise none).1.outReleased = false ∧
    (process_video_with_pose envRaise none).1.poseClosed = false :=
  ⟨rfl, rfl, rfl, rfl⟩

/-- Claim C3 as amended: the input source, the output sink and the
pose-detector resources are all released exactly on the normal-completion
exit path; on every exceptional exit — source-open failure or an
exception escaping the frame loop — none of the three is released. -/
theorem claim_C3_amended (env : Env) (mr : Option Int) :
    ((process_video_with_pose env mr).2 = Except.ok () →
      (process_video_with_pose env mr).1.capReleased = true ∧
      (process_video_with_pose env mr).1.outReleased = true ∧
      (process_video_with_pose env mr).1.poseClosed = true) ∧
    ((process_video_with_pose env mr).2 ≠ Except.ok () →
      (process_video_with_pose env mr).1.capReleased = false ∧
      (process_video_with_pose env mr).1.outReleased = false ∧
      (process_video_with_pose env mr).1.poseClosed = false) := by
  cases hcap : env.capOpens with
  | false => simp [process_video_with_pose, hcap]
  | true =>
    rcases hpf : processFrames env (resolveRot env mr)
        (env.avc1Opens || env.mp4vOpens) env.frames 0 [] with ⟨w, c, lo⟩
    cases lo <;> simp [process_video_with_pose, hcap, hpf]

/-- Witness for the amended C3 at a normally completing environment and
at one whose capture fails to open. -/
theorem claim_C3_witness :
    ((process_video_with_pose envNormal none).1.capReleased = true ∧
      (process_video_with_pose envNormal none).1.outReleased = true ∧
      (process_video_with_pose envNormal none).1.poseClosed = true) ∧
    ((process_video_with_pose envNoCap none).1.capReleased = false ∧
      (process_video_with_pose envNoCap none).1.outReleased = false ∧
      (process_video_with_pose envNoCap none).1.poseClosed = false) :=
  ⟨(claim_C3_amended envNormal none).1 rfl,
    (claim_C3_amended envNoCap none).2 (fun h => nomatch h)⟩

/-- Counterexample to C4 as stated: the orientation value 45 is neither
rejected before resources are opened nor failed on by the Frame
Transformer — the driver accepts the hint, opens its resources,
processes the frame to completion, and `rotate_frame` returns the frame
unchanged. -/
theorem claim_C4_cex :
    rotate_frame tFrameA 45 = tFrameA ∧
    (process_video_with_pose envNormal (some 45)).2 = Except.ok () ∧
    (process_video_with_pose envNormal (some 45)).1.frameCount = 1 :=
  ⟨rfl, rfl, rfl⟩

/-- Claim C4 as amended: an orientation value outside {0, 90, 180, 270}
supplied as an explicit hint is not rejected — no invalid-input check
exists; the driver runs to normal completion with the invalid hint, and
the Frame Transformer treats every value other than 90, 180 and 270 as
the identity, returning the frame unchanged instead of failing. -/
theorem claim_C4_amended (r : Int) (f : Frame) (env : Env)
    (h90 : r ≠ 90) (h180 : r ≠ 180) (h270 : r ≠ 270)
    (hcap : env.capOpens = true)
    (hdet : ∀ k g, ∃ v, env.detect k g = Except.ok v) :
    rotate_frame f r = f ∧
    (process_video_with_pose env (some r)).2 = Except.ok () := by
  constructor
  · simp [rotate_frame, h90, h180, h270]
  · rw [driver_ok env (some r) hcap hdet]

/-- Witness for the amended C4 at the concrete orientation value 500 and
a healthy concrete environment. -/
theorem claim_C4_witness :
    rotate_frame tFrameA 500 = tFrameA ∧
    (process_video_with_pose envFallback (some 500)).2 = Except.ok () :=
  claim_C4_amended 500 tFrameA envFallback (by norm_num) (by norm_num)
    (by norm_num) rfl (fun _ _ => ⟨none, rfl⟩)

end GolfBuddy
